import Mathlib

/-!
Shallow embedding of the ASGI WebSocket adapter
(src/sanic/server/websockets/connection.py, class WebSocketConnection).

The adapter wraps two asynchronous transport primitives, a send closure and
a receive closure.  We model each method as a pure function: the effect of
the send primitive is recorded as the list of message envelopes the method
passes to it (in order), and the envelope yielded by the receive primitive
is an explicit input.  A method returns the adapter state it leaves behind
together with the envelopes it sent, so frame properties are statable.
-/

namespace Sanic

/-- An ASGI message envelope: a mapping with a required type key and
optional payload keys.  An absent key is modelled as none.  Python byte
strings are modelled as lists of byte values. -/
structure ASGIMessage where
  type : String
  text : Option String := none
  bytes : Option (List Nat) := none
  subprotocol : Option String := none
deriving DecidableEq

/-- The InvalidUsage exception from sanic.exceptions, carrying its message. -/
structure InvalidUsage where
  message : String
deriving DecidableEq

/-- A payload value handed to the application by recv: either a text string
or a byte sequence. -/
inductive WSData where
  | text (s : String)
  | binary (b : List Nat)
deriving DecidableEq

/-- An argument passed to WebSocketConnection.send.  Python accepts any
value: a byte string takes the isinstance branch, everything else is
coerced with str().  A non-string non-bytes value is modelled by the
string that str() produces for it. -/
inductive SendArg where
  | str (s : String)
  | bytes (b : List Nat)
  | other (strRepr : String)
deriving DecidableEq

/-- Python str() applied to a SendArg: a string is returned unchanged and
any other non-bytes value yields its string representation. -/
def SendArg.pyStr : SendArg → String
  | .str s => s
  | .bytes _ => ""
  | .other r => r

/-- Python truthiness coercion used twice in the source
(sub or empty-list): None and the empty list are falsy. -/
def orEmptyList (subprotocols : Option (List String)) : List String :=
  match subprotocols with
  | none => []
  | some l => if l.isEmpty then [] else l

/-- The adapter state: only the configured subprotocol list is mutable
data; the two transport closures live outside the model. -/
structure WebSocketConnection where
  _subprotocols : List String
deriving DecidableEq

namespace WebSocketConnection

/-- Constructor: __init__ stores subprotocols or [] (Python or). -/
def init (subprotocols : Option (List String) := none) : WebSocketConnection :=
  ⟨orEmptyList subprotocols⟩

/-- The subprotocols property getter: returns self._subprotocols. -/
def subprotocols (conn : WebSocketConnection) : List String :=
  conn._subprotocols

/-- The subprotocols property setter: stores subprotocols or [] (Python or). -/
def setSubprotocols (conn : WebSocketConnection)
    (subprotocols : Option (List String) := none) : WebSocketConnection :=
  { conn with _subprotocols := orEmptyList subprotocols }

/-- The send method: builds one envelope with type websocket.send, sets the
bytes field when data is a byte string (isinstance check) and otherwise the
text field to str(data), then passes it to the transport send primitive.
Result: the state left behind and the envelopes sent, in order. -/
def send (conn : WebSocketConnection) (data : SendArg) :
    WebSocketConnection × List ASGIMessage :=
  match data with
  | .bytes b => (conn, [{ type := "websocket.send", bytes := some b }])
  | d => (conn, [{ type := "websocket.send", text := some d.pyStr }])

/-- The recv method (aliased as receive), applied to the envelope yielded
by the transport receive primitive.  On type websocket.receive it returns
the text key if present, else the bytes key if present, else raises
InvalidUsage; on any other type it returns None. -/
def recv (conn : WebSocketConnection) (m : ASGIMessage) :
    Except InvalidUsage (Option WSData) :=
  if m.type = "websocket.receive" then
    match m.text with
    | some t => Except.ok (some (WSData.text t))
    | none =>
      match m.bytes with
      | some b => Except.ok (some (WSData.binary b))
      | none => Except.error { message := "Bad ASGI message received" }
  else
    Except.ok none

/-- The accept method: starts with subprotocol = None; when the override
argument is truthy it scans it in order and keeps the first entry that is
a member of self.subprotocols, then sends one websocket.accept envelope
carrying the selected subprotocol.  Result: the state left behind and the
envelopes sent. -/
def accept (conn : WebSocketConnection)
    (subprotocols : Option (List String) := none) :
    WebSocketConnection × List ASGIMessage :=
  let selected : Option String :=
    match subprotocols with
    | none => none
    | some l =>
      if l.isEmpty then none
      else l.find? (fun subp => decide (subp ∈ conn.subprotocols))
  (conn, [{ type := "websocket.accept", subprotocol := selected }])

/-- The close method: its body is pass, so it touches nothing and sends
nothing. -/
def close (conn : WebSocketConnection) (code : Int := 1000)
    (reason : String := "") : WebSocketConnection × List ASGIMessage :=
  let _ := code
  let _ := reason
  (conn, [])

end WebSocketConnection

/-! Helper lemmas on List.find?, shared by the accept theorems. -/

theorem find?_append_of_forall_false {α : Type} (p : α → Bool) (pre l : List α)
    (h : ∀ q ∈ pre, p q = false) :
    (pre ++ l).find? p = l.find? p := by
  induction pre with
  | nil => rfl
  | cons x xs ih =>
    have hx : p x = false := h x (List.mem_cons_self x xs)
    simp only [List.cons_append, List.find?_cons, hx]
    exact ih fun q hq => h q (List.mem_cons_of_mem x hq)

theorem find?_cons_of_true {α : Type} (p : α → Bool) (a : α) (l : List α)
    (h : p a = true) : (a :: l).find? p = some a := by
  simp [List.find?_cons, h]

namespace WebSocketConnection

/-- C1: accept with a non-empty override sends exactly one websocket.accept
envelope whose subprotocol is the first override entry (in override order)
that is a member of the configured subprotocol list; if no override entry
is configured, or accept is called with no override or an empty one, the
envelope carries subprotocol = none. -/
theorem accept_spec (conn : WebSocketConnection) (ov : List String)
    (hov : ov ≠ []) :
    (∀ p pre post, ov = pre ++ p :: post → p ∈ conn.subprotocols →
        (∀ q ∈ pre, q ∉ conn.subprotocols) →
        (conn.accept (some ov)).2 =
          [{ type := "websocket.accept", subprotocol := some p }]) ∧
    ((∀ p ∈ ov, p ∉ conn.subprotocols) →
        (conn.accept (some ov)).2 =
          [{ type := "websocket.accept", subprotocol := none }]) ∧
    (conn.accept none).2 =
      [{ type := "websocket.accept", subprotocol := none }] ∧
    (conn.accept (some [])).2 =
      [{ type := "websocket.accept", subprotocol := none }] := by
  cases ov with
  | nil => exact absurd rfl hov
  | cons x xs =>
    refine ⟨?_, ?_, rfl, rfl⟩
    · intro p pre post hsplit hp hpre
      have hne : (pre ++ p :: post).isEmpty = false := by
        cases pre <;> rfl
      simp only [accept, hsplit, hne, Bool.false_eq_true, if_false]
      rw [find?_append_of_forall_false _ pre _
            (fun q hq => by simp [hpre q hq]),
          find?_cons_of_true _ p _ (by simp [hp])]
    · intro hnone
      simp only [accept, List.isEmpty_cons, Bool.false_eq_true, if_false]
      rw [List.find?_eq_none.mpr (fun q hq => by simp [hnone q hq])]

/-- Witness for C1: against configured subprotocols chatv1, chatv3 the
override list chatv2, chatv1 selects chatv1 and the no-override call
selects none. -/
theorem accept_spec_witness :
    ((WebSocketConnection.init (some ["chatv1", "chatv3"])).accept
        (some ["chatv2", "chatv1"])).2 =
      [{ type := "websocket.accept", subprotocol := some "chatv1" }] ∧
    ((WebSocketConnection.init (some ["chatv1", "chatv3"])).accept none).2 =
      [{ type := "websocket.accept", subprotocol := none }] :=
  ⟨(accept_spec (WebSocketConnection.init (some ["chatv1", "chatv3"]))
      ["chatv2", "chatv1"] (by decide)).1 "chatv1" ["chatv2"] [] rfl
      (by decide) (by decide),
   (accept_spec (WebSocketConnection.init (some ["chatv1", "chatv3"]))
      ["chatv2", "chatv1"] (by decide)).2.2.1⟩

/-- C2: on an envelope of type websocket.receive, recv returns the text
field when present, and otherwise the bytes field when present. -/
theorem recv_payload (conn : WebSocketConnection) (m : ASGIMessage)
    (h : m.type = "websocket.receive") :
    (∀ t, m.text = some t →
        conn.recv m = Except.ok (some (WSData.text t))) ∧
    (m.text = none → ∀ b, m.bytes = some b →
        conn.recv m = Except.ok (some (WSData.binary b))) := by
  constructor
  · intro t ht
    simp [recv, h, ht]
  · intro ht b hb
    simp [recv, h, ht, hb]

/-- Witness for C2: a text envelope carrying hello round-trips to hello,
and a bytes envelope carrying the bytes 1, 2 round-trips to them. -/
theorem recv_payload_witness :
    (WebSocketConnection.init none).recv
        { type := "websocket.receive", text := some "hello" } =
      Except.ok (some (WSData.text "hello")) ∧
    (WebSocketConnection.init none).recv
        { type := "websocket.receive", bytes := some [1, 2] } =
      Except.ok (some (WSData.binary [1, 2])) :=
  ⟨(recv_payload (WebSocketConnection.init none)
      { type := "websocket.receive", text := some "hello" } rfl).1 "hello" rfl,
   (recv_payload (WebSocketConnection.init none)
      { type := "websocket.receive", bytes := some [1, 2] } rfl).2 rfl [1, 2] rfl⟩

/-- C3: recv fails with the InvalidUsage bad-message error exactly when the
envelope has type websocket.receive and carries neither a text nor a bytes
field; the error is returned to the caller directly. -/
theorem recv_invalid_iff (conn : WebSocketConnection) (m : ASGIMessage) :
    conn.recv m = Except.error { message := "Bad ASGI message received" } ↔
      m.type = "websocket.receive" ∧ m.text = none ∧ m.bytes = none := by
  by_cases h : m.type = "websocket.receive"
  · cases ht : m.text with
    | some t => simp [recv, h, ht]
    | none =>
      cases hb : m.bytes with
      | some b => simp [recv, h, ht, hb]
      | none => simp [recv, h, ht, hb]
  · simp [recv, h]

/-- C4: recv on an envelope whose type is not websocket.receive returns
none without failing, whatever other fields the envelope carries. -/
theorem recv_non_receive (conn : WebSocketConnection) (m : ASGIMessage)
    (h : m.type ≠ "websocket.receive") :
    conn.recv m = Except.ok none := by
  simp [recv, h]

/-- Witness for C4: a disconnect envelope, even one carrying payload
fields, makes recv return none. -/
theorem recv_non_receive_witness :
    (WebSocketConnection.init none).recv
        { type := "websocket.disconnect", text := some "x", bytes := some [0] } =
      Except.ok none :=
  recv_non_receive (WebSocketConnection.init none)
    { type := "websocket.disconnect", text := some "x", bytes := some [0] }
    (by decide)

/-- C5: send on a byte sequence passes exactly one envelope to the
transport, of type websocket.send, with the bytes field set verbatim and
no text field, and leaves the adapter state unchanged. -/
theorem send_bytes_envelope (conn : WebSocketConnection) (b : List Nat) :
    conn.send (SendArg.bytes b) =
      (conn, [{ type := "websocket.send", text := none, bytes := some b }]) :=
  rfl

/-- C6: send on anything that is not a byte sequence passes exactly one
envelope to the transport, of type websocket.send, with the text field set
to the str coercion of the argument and no bytes field; in particular a
string argument is sent as itself and other values are coerced, not
rejected. -/
theorem send_text_envelope (conn : WebSocketConnection) (data : SendArg)
    (h : ∀ b, data ≠ SendArg.bytes b) :
    conn.send data =
      (conn, [{ type := "websocket.send", text := some data.pyStr,
                bytes := none }]) := by
  cases data with
  | str s => rfl
  | bytes b => exact absurd rfl (h b)
  | other r => rfl

/-- Witness for C6: a plain string is sent under the text field unchanged,
and a non-string non-bytes value is sent as its string representation. -/
theorem send_text_envelope_witness :
    (WebSocketConnection.init none).send (SendArg.str "hi") =
      (WebSocketConnection.init none,
        [{ type := "websocket.send", text := some "hi", bytes := none }]) ∧
    (WebSocketConnection.init none).send (SendArg.other "42") =
      (WebSocketConnection.init none,
        [{ type := "websocket.send", text := some "42", bytes := none }]) :=
  ⟨send_text_envelope (WebSocketConnection.init none) (SendArg.str "hi")
      (fun b h => SendArg.noConfusion h),
   send_text_envelope (WebSocketConnection.init none) (SendArg.other "42")
      (fun b h => SendArg.noConfusion h)⟩

/-- C7: close sends nothing to the transport, leaves the adapter state
unchanged and returns, for every code and reason. -/
theorem close_is_noop (conn : WebSocketConnection) (code : Int)
    (reason : String) :
    conn.close code reason = (conn, []) :=
  rfl

/-- C8: the subprotocols accessor never yields a null value: constructing
with the argument omitted or none gives the empty list, the setter maps
none to the empty list, and setting an explicit list makes a subsequent
read return exactly that list. -/
theorem subprotocols_accessor_spec (conn : WebSocketConnection)
    (l : List String) :
    (WebSocketConnection.init none).subprotocols = [] ∧
    WebSocketConnection.init.subprotocols = [] ∧
    (conn.setSubprotocols none).subprotocols = [] ∧
    (conn.setSubprotocols (some l)).subprotocols = l := by
  refine ⟨rfl, rfl, rfl, ?_⟩
  cases l with
  | nil => rfl
  | cons x xs => rfl

/-- C9: accept leaves the configured subprotocol list exactly as it was,
for every override argument. -/
theorem accept_preserves_subprotocols (conn : WebSocketConnection)
    (ov : Option (List String)) :
    ((conn.accept ov).1).subprotocols = conn.subprotocols :=
  rfl

/-- C10: when a websocket.receive envelope carries both a text and a bytes
field, recv returns the text value; the bytes value is ignored. -/
theorem recv_text_priority (conn : WebSocketConnection) (m : ASGIMessage)
    (h : m.type = "websocket.receive") (t : String) (b : List Nat)
    (ht : m.text = some t) (hb : m.bytes = some b) :
    conn.recv m = Except.ok (some (WSData.text t)) := by
  simp [recv, h, ht]

/-- Witness for C10: an envelope carrying both the text hello and the
bytes 1, 2 yields the text hello. -/
theorem recv_text_priority_witness :
    (WebSocketConnection.init none).recv
        { type := "websocket.receive", text := some "hello",
          bytes := some [1, 2] } =
      Except.ok (some (WSData.text "hello")) :=
  recv_text_priority (WebSocketConnection.init none)
    { type := "websocket.receive", text := some "hello", bytes := some [1, 2] }
    rfl "hello" [1, 2] rfl rfl

end WebSocketConnection

end Sanic
